import Mathlib

/-!
Shallow embedding of the Pyre HTTP server core (Rust sources under
`src/pyre_server/`).  Pure state is modelled explicitly: bytes are `Nat`
(one byte per list entry), the crossbeam bounded channel is a queue with a
capacity and a disconnected flag, and the update queue plus waker of
`transport.rs` is a list of `EventUpdate`s with a wake counter.
-/

namespace Pyre

/-- Connection identifier (`mio::Token`), an opaque integer. -/
abbrev Token := Nat

/-- A body payload travelling on the Sender/Receiver channels:
`(more_body, body)` as in `responders::Payload`. -/
abbrev Payload := Bool × List Nat

/-- The interest-set change requests of `transport.rs`. -/
inductive EventUpdate where
  | pauseReading (tok : Token)
  | pauseWriting (tok : Token)
  | resumeReading (tok : Token)
  | resumeWriting (tok : Token)
  deriving DecidableEq, Repr

/-- A crossbeam bounded MPSC channel: pending queue (front = oldest),
capacity, and whether every endpoint of the other side was dropped. -/
structure Channel (α : Type) where
  queue : List α
  cap : Nat
  disconnected : Bool
  deriving DecidableEq, Repr

/-- Outcome of `crossbeam::channel::Sender::send` on a bounded channel:
it succeeds while there is spare capacity, returns a `SendError` once the
channel is disconnected, and otherwise BLOCKS the calling thread until
capacity frees up (it has no channel-full error). -/
inductive SendOutcome (α : Type) where
  | ok (c : Channel α)
  | blocked
  | disconnected
  deriving DecidableEq, Repr

/-- `Sender::send` of crossbeam on a bounded channel. -/
def Channel.send {α : Type} (c : Channel α) (x : α) : SendOutcome α :=
  if c.disconnected then .disconnected
  else if c.queue.length < c.cap then .ok { c with queue := c.queue ++ [x] }
  else .blocked

/-- `Receiver::try_recv` of crossbeam: pops the oldest message, never
blocking; yields nothing when the queue is empty. -/
def Channel.tryRecv {α : Type} (c : Channel α) : Option (α × Channel α) :=
  match c.queue with
  | [] => none
  | x :: rest => some (x, { c with queue := rest })

/-- The channel constructed by `SenderHandler::new`: `bounded(10)`. -/
def senderChannelNew : Channel Payload :=
  { queue := [], cap := 10, disconnected := false }

/-- Observable effects of a `DataSender.__call__` invocation, in program
order: pushing an update onto the shared queue, waking the poller, and
enqueueing a payload on the bounded channel. -/
inductive Effect where
  | pushUpdate (u : EventUpdate)
  | wake
  | enqueue (p : Payload)
  deriving DecidableEq, Repr

/-- The state visible from a `DataSender` handle: the shared update queue
and wake counter of `EventLoopHandle`, the bounded channel of its
`SenderHandler`, and a trace of the effects performed so far. -/
structure SenderWorld where
  updates : List EventUpdate
  wakes : Nat
  chan : Channel Payload
  trace : List Effect
  deriving DecidableEq, Repr

/-- `EventLoopHandle::resume_writing`: push `ResumeWriting(token)` then
wake the event loop (transport.rs). -/
def EventLoopHandle.resume_writing (tok : Token) (w : SenderWorld) : SenderWorld :=
  { w with
      updates := w.updates ++ [.resumeWriting tok]
      wakes := w.wakes + 1
      trace := w.trace ++ [.pushUpdate (.resumeWriting tok), .wake] }

/-- What a `DataSender.__call__` invocation reports back to Python:
`Ok(())`, a `PyRuntimeError` (channel disconnected), or no return at all
because the blocking `send` parked the thread. -/
inductive CallResult where
  | ok
  | err
  | blocked
  deriving DecidableEq, Repr

/-- `DataSender::__call__(more_body, body)` (responders/sender.rs):
first `self.event_loop.resume_writing(self.token)`, then
`self.tx.send((more_body, body))`, erroring only on a disconnected
channel. -/
def DataSender.call (tok : Token) (w : SenderWorld) (more_body : Bool)
    (body : List Nat) : SenderWorld × CallResult :=
  let w1 := EventLoopHandle.resume_writing tok w
  match w1.chan.send (more_body, body) with
  | .ok c => ({ w1 with chan := c, trace := w1.trace ++ [.enqueue (more_body, body)] }, .ok)
  | .blocked => (w1, .blocked)
  | .disconnected => (w1, .err)

/-- Iterate `DataSender.__call__` with a fixed payload, returning the
final world and the list of call results in order. -/
def DataSender.callN (tok : Token) (more_body : Bool) (body : List Nat) :
    Nat → SenderWorld → SenderWorld × List CallResult
  | 0, w => (w, [])
  | n + 1, w =>
    let (w1, r) := DataSender.call tok w more_body body
    let (w2, rs) := DataSender.callN tok more_body body n w1
    (w2, r :: rs)

/-- A fresh sender world: empty update queue, fresh `bounded(10)` channel,
nothing yet traced. -/
def freshSenderWorld : SenderWorld :=
  { updates := [], wakes := 0, chan := senderChannelNew, trace := [] }

end Pyre

namespace Pyre

/-- The while-let drain loop of `H1Protocol::fill_write_buffer`:
`while let Ok((_more_body, buff)) = self.sender.recv() { buffer.extend(buff); }`
(protocols/h1.rs). -/
def H1Protocol.fillLoop (c : Channel Payload) (buffer : List Nat) :
    Channel Payload × List Nat :=
  match h : c.tryRecv with
  | none => (c, buffer)
  | some ((_more_body, buff), c') => H1Protocol.fillLoop c' (buffer ++ buff)
termination_by c.queue.length
decreasing_by
  simp only [Channel.tryRecv] at h
  cases hq : c.queue with
  | nil => rw [hq] at h; simp at h
  | cons x rest =>
    rw [hq] at h
    simp at h
    simp [← h.2, hq]

/-- State touched by `fill_write_buffer`: the sender channel, the shared
write buffer of the multiplexer, and the update queue / wake counter. -/
structure H1WriteWorld where
  chan : Channel Payload
  buffer : List Nat
  updates : List EventUpdate
  wakes : Nat
  deriving DecidableEq, Repr

/-- `H1Protocol::fill_write_buffer`: drain the sender channel into the
write buffer, then `self.event_loop.pause_writing(self.token)`
unconditionally. -/
def H1Protocol.fill_write_buffer (tok : Token) (w : H1WriteWorld) : H1WriteWorld :=
  let (c, buf) := H1Protocol.fillLoop w.chan w.buffer
  { chan := c
    buffer := buf
    updates := w.updates ++ [.pauseWriting tok]
    wakes := w.wakes + 1 }

theorem H1Protocol.fillLoop_eq_nil (c : Channel Payload) (buffer : List Nat)
    (hq : c.queue = []) : H1Protocol.fillLoop c buffer = (c, buffer) := by
  rw [H1Protocol.fillLoop]
  split
  · rfl
  · rename_i p c' h
    rw [Channel.tryRecv] at h
    rw [hq] at h
    simp at h

theorem H1Protocol.fillLoop_eq_cons (c : Channel Payload) (p : Payload)
    (rest : List Payload) (buffer : List Nat) (hq : c.queue = p :: rest) :
    H1Protocol.fillLoop c buffer =
      H1Protocol.fillLoop { c with queue := rest } (buffer ++ p.2) := by
  rw [H1Protocol.fillLoop]
  split
  · rename_i h
    rw [Channel.tryRecv] at h
    rw [hq] at h
    simp at h
  · rename_i mb buff c' h
    rw [Channel.tryRecv] at h
    rw [hq] at h
    simp only [Option.some.injEq, Prod.mk.injEq] at h
    obtain ⟨hp, hc⟩ := h
    rw [← hc, hp]

theorem H1Protocol.fillLoop_spec (q : List Payload) :
    ∀ (c : Channel Payload) (buffer : List Nat), c.queue = q →
      H1Protocol.fillLoop c buffer =
        ({ c with queue := [] }, buffer ++ (q.map Prod.snd).flatten) := by
  induction q with
  | nil =>
    intro c buffer hq
    rw [H1Protocol.fillLoop_eq_nil c buffer hq]
    have : { c with queue := ([] : List Payload) } = c := by
      cases c; simp_all
    rw [this]
    simp
  | cons p rest ih =>
    intro c buffer hq
    rw [H1Protocol.fillLoop_eq_cons c p rest buffer hq]
    rw [ih { c with queue := rest } (buffer ++ p.2) rfl]
    simp [List.append_assoc]

/-- C6: for every state of the Sender channel, `fill_write_buffer` appends
to the write buffer, in channel (FIFO) order, the body bytes of every
payload queued on the channel, leaves the channel empty, and posts exactly
one `PauseWriting(tok)` on the update queue — unconditionally, whether or
not any bytes were appended (it is a total, non-blocking drain). -/
theorem C6_fill_write_buffer_drains_and_pauses (tok : Token) (w : H1WriteWorld) :
    H1Protocol.fill_write_buffer tok w =
      { chan := { w.chan with queue := [] }
        buffer := w.buffer ++ (w.chan.queue.map Prod.snd).flatten
        updates := w.updates ++ [.pauseWriting tok]
        wakes := w.wakes + 1 } := by
  unfold H1Protocol.fill_write_buffer
  rw [H1Protocol.fillLoop_spec w.chan.queue w.chan w.buffer rfl]

/-- C10: two channel states whose queued payloads have identical body
bytes and differ only in their `more_body` flags yield identical write
buffers and identical posted updates from `fill_write_buffer` — the
`more_body` flag has no effect on the core's output. -/
theorem C10_fill_write_buffer_ignores_more_body (tok : Token)
    (w1 w2 : H1WriteWorld)
    (hbody : w1.chan.queue.map Prod.snd = w2.chan.queue.map Prod.snd)
    (hbuf : w1.buffer = w2.buffer) (hupd : w1.updates = w2.updates) :
    (H1Protocol.fill_write_buffer tok w1).buffer
        = (H1Protocol.fill_write_buffer tok w2).buffer ∧
      (H1Protocol.fill_write_buffer tok w1).updates
        = (H1Protocol.fill_write_buffer tok w2).updates := by
  unfold H1Protocol.fill_write_buffer
  rw [H1Protocol.fillLoop_spec w1.chan.queue w1.chan w1.buffer rfl]
  rw [H1Protocol.fillLoop_spec w2.chan.queue w2.chan w2.buffer rfl]
  simp [hbody, hbuf, hupd]

/-- Witness for C10 at concrete inputs: the same bodies under opposite
`more_body` flags produce the same buffer and updates. -/
theorem C10_witness :
    (H1Protocol.fill_write_buffer 3
        { chan := { queue := [(true, [1, 2]), (false, [3])], cap := 10, disconnected := false }
          buffer := [9], updates := [], wakes := 0 }).buffer
      = (H1Protocol.fill_write_buffer 3
        { chan := { queue := [(false, [1, 2]), (true, [3])], cap := 10, disconnected := false }
          buffer := [9], updates := [], wakes := 0 }).buffer ∧
    (H1Protocol.fill_write_buffer 3
        { chan := { queue := [(true, [1, 2]), (false, [3])], cap := 10, disconnected := false }
          buffer := [9], updates := [], wakes := 0 }).updates
      = (H1Protocol.fill_write_buffer 3
        { chan := { queue := [(false, [1, 2]), (true, [3])], cap := 10, disconnected := false }
          buffer := [9], updates := [], wakes := 0 }).updates :=
  C10_fill_write_buffer_ignores_more_body 3 _ _ (by decide) rfl rfl

/-- The trace suffix a successful `DataSender.__call__` appends: push the
`ResumeWriting` update, wake the loop, then enqueue the payload. -/
theorem DataSender.call_trace_ok (tok : Token) (w : SenderWorld) (more_body : Bool)
    (body : List Nat) (c : Channel Payload)
    (h : w.chan.send (more_body, body) = .ok c) :
    (DataSender.call tok w more_body body).1.trace =
      w.trace ++ [Effect.pushUpdate (.resumeWriting tok), Effect.wake,
        Effect.enqueue (more_body, body)] := by
  simp [DataSender.call, EventLoopHandle.resume_writing, h]

/-- The trace suffix of a call whose send blocked: push and wake only. -/
theorem DataSender.call_trace_blocked (tok : Token) (w : SenderWorld)
    (more_body : Bool) (body : List Nat)
    (h : w.chan.send (more_body, body) = .blocked) :
    (DataSender.call tok w more_body body).1.trace =
      w.trace ++ [Effect.pushUpdate (.resumeWriting tok), Effect.wake] := by
  simp [DataSender.call, EventLoopHandle.resume_writing, h]

/-- The trace suffix of a call whose send hit a disconnected channel:
push and wake only. -/
theorem DataSender.call_trace_disconnected (tok : Token) (w : SenderWorld)
    (more_body : Bool) (body : List Nat)
    (h : w.chan.send (more_body, body) = .disconnected) :
    (DataSender.call tok w more_body body).1.trace =
      w.trace ++ [Effect.pushUpdate (.resumeWriting tok), Effect.wake] := by
  simp [DataSender.call, EventLoopHandle.resume_writing, h]

/-- C7: in every invocation of `Sender.__call__` that enqueues a payload,
the `ResumeWriting(tok)` push onto the update queue happens strictly
before the payload is enqueued on the channel: in the effect suffix this
call appends to the trace, every `enqueue` of the payload is preceded by
the matching `pushUpdate (resumeWriting tok)`. -/
theorem C7_resume_writing_precedes_enqueue (tok : Token) (w : SenderWorld)
    (more_body : Bool) (body : List Nat) (j : Nat)
    (hj : ((DataSender.call tok w more_body body).1.trace.drop w.trace.length)[j]?
            = some (.enqueue (more_body, body))) :
    ∃ i, i < j ∧
      ((DataSender.call tok w more_body body).1.trace.drop w.trace.length)[i]?
        = some (.pushUpdate (.resumeWriting tok)) := by
  cases h : w.chan.send (more_body, body)
  · rw [DataSender.call_trace_ok tok w more_body body _ h] at hj ⊢
    rw [List.drop_left] at hj ⊢
    match j with
    | 0 => simp at hj
    | 1 => simp at hj
    | 2 => exact ⟨0, by omega, rfl⟩
    | n + 3 => simp at hj
  · rw [DataSender.call_trace_blocked tok w more_body body h] at hj ⊢
    rw [List.drop_left] at hj ⊢
    match j with
    | 0 => simp at hj
    | 1 => simp at hj
    | n + 2 => simp at hj
  · rw [DataSender.call_trace_disconnected tok w more_body body h] at hj ⊢
    rw [List.drop_left] at hj ⊢
    match j with
    | 0 => simp at hj
    | 1 => simp at hj
    | n + 2 => simp at hj

/-- Witness for C7: a successful call from a fresh world enqueues at
suffix index 2, and the `ResumeWriting` push indeed precedes it. -/
theorem C7_witness :
    ∃ i, i < 2 ∧
      ((DataSender.call 3 freshSenderWorld false [104]).1.trace.drop
          freshSenderWorld.trace.length)[i]?
        = some (.pushUpdate (.resumeWriting 3)) :=
  C7_resume_writing_precedes_enqueue 3 freshSenderWorld false [104] 2 (by decide)

/-- C9: for every invocation of `Sender.__call__`, the `ResumeWriting(tok)`
push and the wakeup have already happened even when the channel send fails
and the call returns an error: a failing call still appends exactly one
`ResumeWriting(tok)` to the update queue and does not leave it unchanged. -/
theorem C9_failed_send_still_pushed_update (tok : Token) (w : SenderWorld)
    (more_body : Bool) (body : List Nat)
    (herr : (DataSender.call tok w more_body body).2 = .err) :
    (DataSender.call tok w more_body body).1.updates
        = w.updates ++ [.resumeWriting tok] ∧
      (DataSender.call tok w more_body body).1.wakes = w.wakes + 1 ∧
      (DataSender.call tok w more_body body).1.updates ≠ w.updates := by
  refine ⟨?_, ?_, ?_⟩ <;>
    cases h : w.chan.send (more_body, body) <;>
      simp [DataSender.call, EventLoopHandle.resume_writing, h]

/-- A sender world whose channel is disconnected (the connection has been
torn down), so that a call returns an error. -/
def disconnectedSenderWorld : SenderWorld :=
  { updates := [], wakes := 0
    chan := { queue := [], cap := 10, disconnected := true }
    trace := [] }

/-- Witness for C9: on a disconnected channel the call errors, yet the
update queue received the `ResumeWriting` push and the waker fired. -/
theorem C9_witness :
    (DataSender.call 3 disconnectedSenderWorld false [104]).1.updates
        = disconnectedSenderWorld.updates ++ [.resumeWriting 3] ∧
      (DataSender.call 3 disconnectedSenderWorld false [104]).1.wakes
        = disconnectedSenderWorld.wakes + 1 ∧
      (DataSender.call 3 disconnectedSenderWorld false [104]).1.updates
        ≠ disconnectedSenderWorld.updates :=
  C9_failed_send_still_pushed_update 3 disconnectedSenderWorld false [104] (by decide)

/-- C1 (divergence witness): starting from a fresh `bounded(10)` channel,
10 consecutive `DataSender.__call__`s succeed, and the 11th — with no
intervening drain — BLOCKS inside crossbeam's `Sender::send` instead of
returning a channel-full error: `send` (unlike `try_send`) has no full
error, so the rejection is not surfaced to the caller. -/
theorem C1_eleventh_call_blocks_instead_of_erroring :
    (DataSender.callN 3 false [104, 105] 11 freshSenderWorld).2
        = List.replicate 10 CallResult.ok ++ [CallResult.blocked] ∧
      CallResult.blocked ≠ CallResult.err := by
  refine ⟨?_, by decide⟩
  decide

end Pyre

namespace Pyre

/-- `u8::to_ascii_lowercase` on one byte. -/
def lowerByte (b : Nat) : Nat := if 65 ≤ b ∧ b ≤ 90 then b + 32 else b

/-- `[u8]::to_ascii_lowercase`: bytewise ASCII lowercasing. -/
def lowerBytes (l : List Nat) : List Nat := l.map lowerByte

/-- `eq_ignore_ascii_case`, the comparison behind `http::HeaderName`'s
`PartialEq<str>`: the two byte strings agree after ASCII lowercasing. -/
def eqIgnoreAsciiCase (a b : List Nat) : Bool := lowerBytes a == lowerBytes b

/-- One byte string starts with another (used for substring search). -/
def startsWithBytes : List Nat → List Nat → Bool
  | _, [] => true
  | [], _ :: _ => false
  | a :: as', b :: bs => a == b && startsWithBytes as' bs

/-- `str::contains` for a byte pattern: some tail of `l` starts with
`pat`. -/
def hasSubList (pat : List Nat) : List Nat → Bool
  | [] => pat.isEmpty
  | b :: rest => startsWithBytes (b :: rest) pat || hasSubList pat rest

/-- A UTF-8 continuation byte. -/
def isContByte (b : Nat) : Bool := 0x80 ≤ b && b ≤ 0xBF

/-- `str::from_utf8` succeeds: the byte string is valid UTF-8 (shortest
forms only, surrogates excluded), as checked by Rust's std. -/
def isValidUtf8 : List Nat → Bool
  | [] => true
  | b :: rest =>
    if b < 0x80 then isValidUtf8 rest
    else match rest with
    | [] => false
    | b1 :: rest1 =>
      if 0xC2 ≤ b && b ≤ 0xDF then
        isContByte b1 && isValidUtf8 rest1
      else match rest1 with
      | [] => false
      | b2 :: rest2 =>
        if b = 0xE0 then
          (0xA0 ≤ b1 && b1 ≤ 0xBF) && isContByte b2 && isValidUtf8 rest2
        else if (0xE1 ≤ b && b ≤ 0xEC) || b = 0xEE || b = 0xEF then
          isContByte b1 && isContByte b2 && isValidUtf8 rest2
        else if b = 0xED then
          (0x80 ≤ b1 && b1 ≤ 0x9F) && isContByte b2 && isValidUtf8 rest2
        else match rest2 with
        | [] => false
        | b3 :: rest3 =>
          if b = 0xF0 then
            (0x90 ≤ b1 && b1 ≤ 0xBF) && isContByte b2 && isContByte b3 &&
              isValidUtf8 rest3
          else if 0xF1 ≤ b && b ≤ 0xF3 then
            isContByte b1 && isContByte b2 && isContByte b3 && isValidUtf8 rest3
          else if b = 0xF4 then
            (0x80 ≤ b1 && b1 ≤ 0x8F) && isContByte b2 && isContByte b3 &&
              isValidUtf8 rest3
          else false

/-- An ASCII decimal digit byte. -/
def asciiDigit (b : Nat) : Bool := 48 ≤ b && b ≤ 57

/-- Value of a digit byte string read in base 10. -/
def digitsToNat (l : List Nat) : Nat := l.foldl (fun acc b => acc * 10 + (b - 48)) 0

/-- `str::from_utf8` followed by `str::parse::<usize>` on a 64-bit
target: an optional leading `+`, then one or more ASCII digits, rejected
on overflow past `usize::MAX`; any other shape fails. -/
def parseUsizeBytes (v : List Nat) : Option Nat :=
  let core := match v with
    | 43 :: rest => rest
    | _ => v
  if core ≠ [] ∧ core.all asciiDigit ∧ digitsToNat core < 2 ^ 64 then
    some (digitsToNat core)
  else none

/-- The bytes of `http::header::CONTENT_LENGTH` (`"content-length"`). -/
def contentLengthBytes : List Nat :=
  [99, 111, 110, 116, 101, 110, 116, 45, 108, 101, 110, 103, 116, 104]

/-- The bytes of `http::header::TRANSFER_ENCODING`
(`"transfer-encoding"`). -/
def transferEncodingBytes : List Nat :=
  [116, 114, 97, 110, 115, 102, 101, 114, 45, 101, 110, 99, 111, 100, 105,
    110, 103]

/-- The bytes of the pattern `"chunked"`. -/
def chunkedBytes : List Nat := [99, 104, 117, 110, 107, 101, 100]

/-- One parsed request header: name (a `&str`, held here as its bytes)
and raw value bytes. -/
structure HttpHeader where
  name : List Nat
  value : List Nat
  deriving DecidableEq, Repr

/-- `header.name == CONTENT_LENGTH` (case-insensitive `HeaderName`
comparison). -/
def isContentLengthHeader (h : HttpHeader) : Bool :=
  eqIgnoreAsciiCase h.name contentLengthBytes

/-- `header.name == TRANSFER_ENCODING` (case-insensitive `HeaderName`
comparison). -/
def isTransferEncodingHeader (h : HttpHeader) : Bool :=
  eqIgnoreAsciiCase h.name transferEncodingBytes

/-- The per-connection HTTP/1 parse state of `H1Protocol`
(protocols/h1.rs): `expected_content_length` and `chunked_encoding`,
initialised to `0` / `false` in `H1Protocol::new` and reset by nothing
else (`new_connection` and `lost_connection` are no-ops on it). -/
structure H1Parse where
  expected_content_length : Nat
  chunked_encoding : Bool
  deriving DecidableEq, Repr

/-- `H1Protocol::check_header`: on a `Content-Length` name, store the
value parsed as `usize` (0 on any failure); on a `Transfer-Encoding`
name, lowercase the value, require it to be UTF-8, and search for the
substring `chunked`; otherwise leave the state alone. -/
def H1Protocol.check_header (st : H1Parse) (h : HttpHeader) : H1Parse :=
  if isContentLengthHeader h then
    { st with expected_content_length := (parseUsizeBytes h.value).getD 0 }
  else if isTransferEncodingHeader h then
    { st with chunked_encoding :=
        if isValidUtf8 (lowerBytes h.value) then
          hasSubList chunkedBytes (lowerBytes h.value)
        else false }
  else st

/-- What `httparse::Request::parse` reports on a buffer: an error, a
partial request needing more bytes, or a complete request with the byte
length of its head and the parsed headers. -/
structure ParsedRequest where
  len : Nat
  headers : List HttpHeader
  deriving DecidableEq, Repr

/-- Outcome of the single parse attempt in `data_received`. -/
inductive ParseResult where
  | parseError
  | incomplete
  | complete (req : ParsedRequest)
  deriving DecidableEq, Repr

/-- Result of one `H1Protocol::data_received` call: the read buffer after
any consumption, the parse state, how many times the host callback was
invoked, and whether the call returned `Ok`. -/
structure DataReceivedOut where
  buffer : List Nat
  state : H1Parse
  callbackCalls : Nat
  ok : Bool
  deriving DecidableEq, Repr

/-- `H1Protocol::data_received` (protocols/h1.rs), with the external
`httparse` parser abstracted as the oracle `parse` and the host
callback's success abstracted as `cbOk`: on `Err` log and return `Ok`
without consuming; on partial return `Ok` without consuming; on complete
`len`, `split_to(len)` off the buffer, fold `check_header` over the
parsed headers, and invoke the callback once. -/
def H1Protocol.data_received (parse : List Nat → ParseResult) (cbOk : Bool)
    (buffer : List Nat) (st : H1Parse) : DataReceivedOut :=
  match parse buffer with
  | .parseError => { buffer := buffer, state := st, callbackCalls := 0, ok := true }
  | .incomplete => { buffer := buffer, state := st, callbackCalls := 0, ok := true }
  | .complete req =>
    { buffer := buffer.drop req.len
      state := req.headers.foldl H1Protocol.check_header st
      callbackCalls := 1
      ok := cbOk }

/-- C3: for every read-buffer content (and parser verdict on it), on a
parse error `data_received` returns success, consumes nothing and does
not invoke the host callback; on a partial status likewise; on a complete
status of byte length `L` (which `httparse` guarantees is at most the
buffer length) it removes exactly the first `L` bytes, leaves the
remainder in place, and invokes the host callback exactly once. -/
theorem C3_data_received_cases (parse : List Nat → ParseResult) (cbOk : Bool)
    (buffer : List Nat) (st : H1Parse) :
    (parse buffer = .parseError →
        H1Protocol.data_received parse cbOk buffer st
          = { buffer := buffer, state := st, callbackCalls := 0, ok := true }) ∧
    (parse buffer = .incomplete →
        H1Protocol.data_received parse cbOk buffer st
          = { buffer := buffer, state := st, callbackCalls := 0, ok := true }) ∧
    (∀ req, parse buffer = .complete req → req.len ≤ buffer.length →
        (H1Protocol.data_received parse cbOk buffer st).buffer
            = buffer.drop req.len ∧
          buffer = buffer.take req.len
              ++ (H1Protocol.data_received parse cbOk buffer st).buffer ∧
          (H1Protocol.data_received parse cbOk buffer st).buffer.length
            = buffer.length - req.len ∧
          (H1Protocol.data_received parse cbOk buffer st).callbackCalls = 1) := by
  refine ⟨fun h => ?_, fun h => ?_, fun req h hlen => ?_⟩ <;>
    simp [H1Protocol.data_received, h]

/-- The bytes of `GET / HTTP/1.1\r\n\r\n` (18 bytes). -/
def getRequestBytes : List Nat :=
  [71, 69, 84, 32, 47, 32, 72, 84, 84, 80, 47, 49, 46, 49, 13, 10, 13, 10]

/-- A read buffer holding that request plus two pipelined bytes. -/
def c3Buffer : List Nat := getRequestBytes ++ [104, 105]

/-- A parse oracle agreeing with `httparse` on `c3Buffer`: the request
head is complete at 18 bytes with no headers; other buffers are treated
as partial. -/
def c3Parse : List Nat → ParseResult := fun b =>
  if b = c3Buffer then .complete { len := 18, headers := [] } else .incomplete

/-- Witness for C3: on the concrete pipelined buffer the complete case
consumes exactly the 18-byte head, leaves the 2 pipelined bytes, and
fires the callback once. -/
theorem C3_witness :
    (H1Protocol.data_received c3Parse true c3Buffer
          { expected_content_length := 0, chunked_encoding := false }).buffer
        = c3Buffer.drop 18 ∧
      c3Buffer = c3Buffer.take 18
          ++ (H1Protocol.data_received c3Parse true c3Buffer
            { expected_content_length := 0, chunked_encoding := false }).buffer ∧
      (H1Protocol.data_received c3Parse true c3Buffer
          { expected_content_length := 0, chunked_encoding := false }).buffer.length
        = c3Buffer.length - 18 ∧
      (H1Protocol.data_received c3Parse true c3Buffer
          { expected_content_length := 0, chunked_encoding := false }).callbackCalls
        = 1 :=
  (C3_data_received_cases c3Parse true c3Buffer
      { expected_content_length := 0, chunked_encoding := false }).2.2
    { len := 18, headers := [] } (by decide) (by decide)

/-- The bytes of
`POST / HTTP/1.1\r\nContent-Length: 5\r\nTransfer-Encoding: chunked\r\n\r\n`
(66 bytes). -/
def postRequestBytes : List Nat :=
  [80, 79, 83, 84, 32, 47, 32, 72, 84, 84, 80, 47, 49, 46, 49, 13, 10, 67,
    111, 110, 116, 101, 110, 116, 45, 76, 101, 110, 103, 116, 104, 58, 32,
    53, 13, 10, 84, 114, 97, 110, 115, 102, 101, 114, 45, 69, 110, 99, 111,
    100, 105, 110, 103, 58, 32, 99, 104, 117, 110, 107, 101, 100, 13, 10,
    13, 10]

/-- The `Content-Length: 5` header of that request as `httparse` reports
it. -/
def clHeader5 : HttpHeader :=
  { name := [67, 111, 110, 116, 101, 110, 116, 45, 76, 101, 110, 103, 116, 104]
    value := [53] }

/-- The `Transfer-Encoding: chunked` header of that request as `httparse`
reports it. -/
def teHeaderChunked : HttpHeader :=
  { name := [84, 114, 97, 110, 115, 102, 101, 114, 45, 69, 110, 99, 111, 100,
      105, 110, 103]
    value := chunkedBytes }

/-- A parse oracle agreeing with `httparse` on the two concrete buffers
used below: the POST with both headers, then a bare GET with none. -/
def c5Parse : List Nat → ParseResult := fun b =>
  if b = postRequestBytes then
    .complete { len := 66, headers := [clHeader5, teHeaderChunked] }
  else if b = getRequestBytes then
    .complete { len := 18, headers := [] }
  else .incomplete

/-- C5 counterexample: after a completed parse of a request with no
`Content-Length` and no `Transfer-Encoding` header (a bare GET following
a POST with `Content-Length: 5` and `Transfer-Encoding: chunked` on the
same connection), `expected_content_length` is still `5` — not `0` as the
claim requires for an absent header — and `chunked_encoding` is still
`true`: `check_header` only ever overwrites on a present header and
nothing resets the fields between requests. -/
theorem C5_counterexample :
    (H1Protocol.data_received c5Parse true getRequestBytes
          (H1Protocol.data_received c5Parse true postRequestBytes
              { expected_content_length := 0, chunked_encoding := false }).state).callbackCalls
        = 1 ∧
      (H1Protocol.data_received c5Parse true getRequestBytes
          (H1Protocol.data_received c5Parse true postRequestBytes
              { expected_content_length := 0, chunked_encoding := false }).state).state
        = { expected_content_length := 5, chunked_encoding := true } ∧
      ¬((H1Protocol.data_received c5Parse true getRequestBytes
            (H1Protocol.data_received c5Parse true postRequestBytes
                { expected_content_length := 0, chunked_encoding := false }).state).state.expected_content_length
          = 0 ∧
        (H1Protocol.data_received c5Parse true getRequestBytes
            (H1Protocol.data_received c5Parse true postRequestBytes
                { expected_content_length := 0, chunked_encoding := false }).state).state.chunked_encoding
          = false) := by
  decide

/-- A header that is not a `Content-Length` leaves
`expected_content_length` untouched. -/
theorem check_header_ecl_skip (st : H1Parse) (h : HttpHeader)
    (hn : isContentLengthHeader h = false) :
    (H1Protocol.check_header st h).expected_content_length
      = st.expected_content_length := by
  unfold H1Protocol.check_header
  rw [hn]
  simp only [Bool.false_eq_true, if_false]
  split <;> rfl

/-- A header that is not a `Transfer-Encoding` leaves `chunked_encoding`
untouched. -/
theorem check_header_chunked_skip (st : H1Parse) (h : HttpHeader)
    (hn : isTransferEncodingHeader h = false) :
    (H1Protocol.check_header st h).chunked_encoding = st.chunked_encoding := by
  unfold H1Protocol.check_header
  rw [hn]
  split <;> simp

/-- Folding `check_header` over headers none of which is a
`Content-Length` preserves `expected_content_length`. -/
theorem foldl_check_header_ecl_skip (hs : List HttpHeader) :
    ∀ st : H1Parse, (∀ h ∈ hs, isContentLengthHeader h = false) →
      (hs.foldl H1Protocol.check_header st).expected_content_length
        = st.expected_content_length := by
  induction hs with
  | nil => intro st _; rfl
  | cons h rest ih =>
    intro st hall
    rw [List.foldl_cons]
    rw [ih (H1Protocol.check_header st h) (fun h' hm => hall h' (by simp [hm]))]
    exact check_header_ecl_skip st h (hall h (by simp))

/-- Folding `check_header` over headers none of which is a
`Transfer-Encoding` preserves `chunked_encoding`. -/
theorem foldl_check_header_chunked_skip (hs : List HttpHeader) :
    ∀ st : H1Parse, (∀ h ∈ hs, isTransferEncodingHeader h = false) →
      (hs.foldl H1Protocol.check_header st).chunked_encoding
        = st.chunked_encoding := by
  induction hs with
  | nil => intro st _; rfl
  | cons h rest ih =>
    intro st hall
    rw [List.foldl_cons]
    rw [ih (H1Protocol.check_header st h) (fun h' hm => hall h' (by simp [hm]))]
    exact check_header_chunked_skip st h (hall h (by simp))

/-- No header name compares equal (ignoring ASCII case) to both
`content-length` and `transfer-encoding`. -/
theorem not_cl_and_te (h : HttpHeader) (hcl : isContentLengthHeader h = true)
    (hte : isTransferEncodingHeader h = true) : False := by
  unfold isContentLengthHeader eqIgnoreAsciiCase at hcl
  unfold isTransferEncodingHeader eqIgnoreAsciiCase at hte
  rw [beq_iff_eq] at hcl hte
  have : lowerBytes contentLengthBytes = lowerBytes transferEncodingBytes := by
    rw [← hcl, hte]
  simp [lowerBytes, lowerByte, contentLengthBytes, transferEncodingBytes] at this

/-- C5 amended: after every completed parse, `expected_content_length`
equals the unsigned-decimal parse (0 on failure) of the value of the LAST
`Content-Length` header of that request when one is present, and is left
at its previous value — not reset to 0 — when the header is absent;
`chunked_encoding` likewise follows the last `Transfer-Encoding` header
(true iff its value is UTF-8 and its lowercased bytes contain `chunked`)
and retains its previous value when that header is absent. -/
theorem C5_amended_check_header_state (parse : List Nat → ParseResult)
    (cbOk : Bool) (buffer : List Nat) (st : H1Parse) (req : ParsedRequest)
    (hc : parse buffer = .complete req) :
    ((∀ h ∈ req.headers, isContentLengthHeader h = false) →
        (H1Protocol.data_received parse cbOk buffer st).state.expected_content_length
          = st.expected_content_length) ∧
      (∀ (pre : List HttpHeader) (h : HttpHeader) (post : List HttpHeader),
        req.headers = pre ++ h :: post → isContentLengthHeader h = true →
        (∀ h' ∈ post, isContentLengthHeader h' = false) →
        (H1Protocol.data_received parse cbOk buffer st).state.expected_content_length
          = (parseUsizeBytes h.value).getD 0) ∧
      ((∀ h ∈ req.headers, isTransferEncodingHeader h = false) →
        (H1Protocol.data_received parse cbOk buffer st).state.chunked_encoding
          = st.chunked_encoding) ∧
      (∀ (pre : List HttpHeader) (h : HttpHeader) (post : List HttpHeader),
        req.headers = pre ++ h :: post → isTransferEncodingHeader h = true →
        (∀ h' ∈ post, isTransferEncodingHeader h' = false) →
        (H1Protocol.data_received parse cbOk buffer st).state.chunked_encoding
          = (if isValidUtf8 (lowerBytes h.value) then
              hasSubList chunkedBytes (lowerBytes h.value)
            else false)) := by
  have hout : (H1Protocol.data_received parse cbOk buffer st).state
      = req.headers.foldl H1Protocol.check_header st := by
    simp [H1Protocol.data_received, hc]
  refine ⟨fun hall => ?_, fun pre h post hsplit hcl hall => ?_,
    fun hall => ?_, fun pre h post hsplit hte hall => ?_⟩
  · rw [hout]
    exact foldl_check_header_ecl_skip req.headers st hall
  · rw [hout, hsplit, List.foldl_append, List.foldl_cons]
    rw [foldl_check_header_ecl_skip post _ hall]
    unfold H1Protocol.check_header
    rw [hcl]
    simp
  · rw [hout]
    exact foldl_check_header_chunked_skip req.headers st hall
  · rw [hout, hsplit, List.foldl_append, List.foldl_cons]
    rw [foldl_check_header_chunked_skip post _ hall]
    have hncl : isContentLengthHeader h = false := by
      cases hv : isContentLengthHeader h with
      | false => rfl
      | true => exact absurd (not_cl_and_te h hv hte) (by simp)
    unfold H1Protocol.check_header
    rw [hncl, hte]
    simp

/-- Witness for the amended C5: the POST request above yields
`expected_content_length = 5` from its last (only) `Content-Length`
header and `chunked_encoding` from its `Transfer-Encoding` header. -/
theorem C5_witness :
    (H1Protocol.data_received c5Parse true postRequestBytes
          { expected_content_length := 0, chunked_encoding := false }).state.expected_content_length
        = (parseUsizeBytes clHeader5.value).getD 0 ∧
      (H1Protocol.data_received c5Parse true postRequestBytes
          { expected_content_length := 0, chunked_encoding := false }).state.chunked_encoding
        = (if isValidUtf8 (lowerBytes teHeaderChunked.value) then
            hasSubList chunkedBytes (lowerBytes teHeaderChunked.value)
          else false) :=
  ⟨(C5_amended_check_header_state c5Parse true postRequestBytes
        { expected_content_length := 0, chunked_encoding := false }
        { len := 66, headers := [clHeader5, teHeaderChunked] }
        (by decide)).2.1
      [] clHeader5 [teHeaderChunked] rfl (by decide) (by decide),
    (C5_amended_check_header_state c5Parse true postRequestBytes
        { expected_content_length := 0, chunked_encoding := false }
        { len := 66, headers := [clHeader5, teHeaderChunked] }
        (by decide)).2.2.2
      [clHeader5] teHeaderChunked [] rfl (by decide) (by decide)⟩

end Pyre

namespace Pyre

/-- The three interest flags of one connection slot (`Client` in
client.rs): whether the poller listens for readable / writable events on
its socket, and whether the slot is idle and reusable. -/
structure SlotFlags where
  is_reading : Bool
  is_writing : Bool
  is_idle : Bool
  deriving DecidableEq, Repr

/-- An interest set passed to the poller. -/
inductive Interest where
  | readable
  | writable
  | readableWritable
  deriving DecidableEq, Repr

/-- One call into the poller registry. -/
inductive PollAction where
  | registerI (i : Interest)
  | reregisterI (i : Interest)
  | deregisterI
  deriving DecidableEq, Repr

/-- `LowLevelServer::pause_reading` (server.rs): if the slot is reading,
reregister to `WRITABLE` when also writing, else deregister; the
`is_reading` flag is cleared only after the poller call succeeded.
Returns the attempted poller calls, the flags, and whether the handler
returned `Ok`. -/
def LowLevelServer.pause_reading (pollOk : Bool) (c : SlotFlags) :
    List PollAction × SlotFlags × Bool :=
  if c.is_reading then
    let act := if c.is_writing then PollAction.reregisterI .writable
      else PollAction.deregisterI
    if pollOk then ([act], { c with is_reading := false }, true)
    else ([act], c, false)
  else ([], c, true)

/-- `LowLevelServer::pause_writing` (server.rs), symmetric to
`pause_reading`. -/
def LowLevelServer.pause_writing (pollOk : Bool) (c : SlotFlags) :
    List PollAction × SlotFlags × Bool :=
  if c.is_writing then
    let act := if c.is_reading then PollAction.reregisterI .readable
      else PollAction.deregisterI
    if pollOk then ([act], { c with is_writing := false }, true)
    else ([act], c, false)
  else ([], c, true)

/-- `LowLevelServer::resume_reading` (server.rs): if the slot is not
reading, reregister to `READABLE | WRITABLE` when already writing, else
register `READABLE`; the flag is set only after success. -/
def LowLevelServer.resume_reading (pollOk : Bool) (c : SlotFlags) :
    List PollAction × SlotFlags × Bool :=
  if c.is_reading then ([], c, true)
  else
    let act := if c.is_writing then PollAction.reregisterI .readableWritable
      else PollAction.registerI .readable
    if pollOk then ([act], { c with is_reading := true }, true)
    else ([act], c, false)

/-- `LowLevelServer::resume_writing` (server.rs), symmetric to
`resume_reading`. -/
def LowLevelServer.resume_writing (pollOk : Bool) (c : SlotFlags) :
    List PollAction × SlotFlags × Bool :=
  if c.is_writing then ([], c, true)
  else
    let act := if c.is_reading then PollAction.reregisterI .readableWritable
      else PollAction.registerI .writable
    if pollOk then ([act], { c with is_writing := true }, true)
    else ([act], c, false)

/-- `LowLevelServer::handle_update`: dispatch one queued `EventUpdate` to
the matching pause/resume handler. -/
def LowLevelServer.handle_update (upd : EventUpdate) (pollOk : Bool)
    (c : SlotFlags) : List PollAction × SlotFlags × Bool :=
  match upd with
  | .pauseReading _ => LowLevelServer.pause_reading pollOk c
  | .pauseWriting _ => LowLevelServer.pause_writing pollOk c
  | .resumeReading _ => LowLevelServer.resume_reading pollOk c
  | .resumeWriting _ => LowLevelServer.resume_writing pollOk c

/-- Modelled from the spec: the interest-transition table of §4.H, row by
row — `(F,F)` resume read registers R, `(F,F)` resume write registers W,
`(T,F)` resume write and `(F,T)` resume read reregister R+W, `(T,F)`
pause read and `(F,T)` pause write deregister, `(T,T)` pause read
reregisters W, `(T,T)` pause write reregisters R, and a slot already in
the requested state is a no-op. -/
def specInterestTable (r w : Bool) (upd : EventUpdate) : List PollAction :=
  match upd with
  | .resumeReading _ =>
    if r then []
    else if w then [.reregisterI .readableWritable] else [.registerI .readable]
  | .resumeWriting _ =>
    if w then []
    else if r then [.reregisterI .readableWritable] else [.registerI .writable]
  | .pauseReading _ =>
    if r then (if w then [.reregisterI .writable] else [.deregisterI]) else []
  | .pauseWriting _ =>
    if w then (if r then [.reregisterI .readable] else [.deregisterI]) else []

/-- Modelled from the spec: the flag state an update requests. -/
def specRequestedFlags (c : SlotFlags) (upd : EventUpdate) : SlotFlags :=
  match upd with
  | .pauseReading _ => { c with is_reading := false }
  | .pauseWriting _ => { c with is_writing := false }
  | .resumeReading _ => { c with is_reading := true }
  | .resumeWriting _ => { c with is_writing := true }

/-- Whether the slot is already in the state the update requests. -/
def alreadyInState (c : SlotFlags) (upd : EventUpdate) : Bool :=
  match upd with
  | .pauseReading _ => !c.is_reading
  | .pauseWriting _ => !c.is_writing
  | .resumeReading _ => c.is_reading
  | .resumeWriting _ => c.is_writing

/-- C4: for every slot and every `EventUpdate`, `handle_update` performs
exactly the poller action the spec's interest-transition table gives as a
function of the current `(is_reading, is_writing)` flags, performs no
poller action when the slot is already in the requested state, and sets
or clears the corresponding flag only after the poller call returns
success — the flags are unchanged when the poller call errors. -/
theorem C4_handle_update_matches_spec_table (upd : EventUpdate)
    (pollOk : Bool) (c : SlotFlags) :
    (LowLevelServer.handle_update upd pollOk c).1
        = specInterestTable c.is_reading c.is_writing upd ∧
      (alreadyInState c upd = true →
        (LowLevelServer.handle_update upd pollOk c).1 = [] ∧
          (LowLevelServer.handle_update upd pollOk c).2.1 = c) ∧
      (pollOk = true →
        (LowLevelServer.handle_update upd pollOk c).2.1
          = specRequestedFlags c upd) ∧
      (pollOk = false → (LowLevelServer.handle_update upd pollOk c).2.1 = c) := by
  obtain ⟨r, w, i⟩ := c
  cases upd <;> cases r <;> cases w <;> cases pollOk <;>
    simp [LowLevelServer.handle_update, LowLevelServer.pause_reading,
      LowLevelServer.pause_writing, LowLevelServer.resume_reading,
      LowLevelServer.resume_writing, specInterestTable, specRequestedFlags,
      alreadyInState]

/-- Witness for C4 at a concrete input: pausing reading on a
reading-only slot deregisters and clears the flag on poller success. -/
theorem C4_witness :
    (LowLevelServer.handle_update (.pauseReading 3) true
          ⟨true, false, false⟩).1
        = specInterestTable true false (.pauseReading 3) ∧
      (LowLevelServer.handle_update (.pauseReading 3) true
          ⟨true, false, false⟩).2.1
        = specRequestedFlags ⟨true, false, false⟩ (.pauseReading 3) :=
  ⟨(C4_handle_update_matches_spec_table (.pauseReading 3) true
      ⟨true, false, false⟩).1,
    (C4_handle_update_matches_spec_table (.pauseReading 3) true
      ⟨true, false, false⟩).2.2.1 rfl⟩

end Pyre

namespace Pyre

/-- Flag effect of `Client::sock_shutdown` (client.rs): notify the
protocol, set `is_idle = true`, shut the write half — `is_reading` and
`is_writing` are NOT touched. -/
def Client.sock_shutdown_flags (c : SlotFlags) : SlotFlags :=
  { c with is_idle := true }

/-- Flag effect of `Client::handle_new`: all three flags cleared. -/
def Client.handle_new_flags (_c : SlotFlags) : SlotFlags :=
  { is_reading := false, is_writing := false, is_idle := false }

/-- The `Shutdown` dispatch branch of
`LowLevelServer::on_socket_state_change` (server.rs): `sock_shutdown`,
then `pause_writing`, then `pause_reading`; a failing poller call in
`pause_writing` propagates and skips `pause_reading`. -/
def LowLevelServer.shutdown_dispatch (okW okR : Bool) (c : SlotFlags) :
    SlotFlags :=
  let c1 := Client.sock_shutdown_flags c
  let r := LowLevelServer.pause_writing okW c1
  if r.2.2 then (LowLevelServer.pause_reading okR r.2.1).2.1 else r.2.1

/-- The event-loop operations that can touch one slot's flags.  The
`readReady` / `writeReady` constructors with `Disconnect` are the error
paths of `Client::read_ready` / `write_ready` (ConnectionReset /
ConnectionAborted / UnexpectedEof), which call `sock_shutdown`
internally; the `Ok` variants cover every other path, which leaves the
flags alone.  The boolean arguments say whether an attempted poller call
succeeds. -/
inductive SlotOp where
  | readReadyDisconnect
  | readReadyOk
  | writeReadyDisconnect
  | writeReadyOk
  | sockShutdown
  | shutdownDispatch (okW : Bool) (okR : Bool)
  | handleNew
  | updPauseReading (ok : Bool)
  | updPauseWriting (ok : Bool)
  | updResumeReading (ok : Bool)
  | updResumeWriting (ok : Bool)
  deriving DecidableEq, Repr

/-- Flag transition of one event-loop operation. -/
def slotStep (c : SlotFlags) : SlotOp → SlotFlags
  | .readReadyDisconnect => Client.sock_shutdown_flags c
  | .readReadyOk => c
  | .writeReadyDisconnect => Client.sock_shutdown_flags c
  | .writeReadyOk => c
  | .sockShutdown => Client.sock_shutdown_flags c
  | .shutdownDispatch okW okR => LowLevelServer.shutdown_dispatch okW okR c
  | .handleNew => Client.handle_new_flags c
  | .updPauseReading ok => (LowLevelServer.pause_reading ok c).2.1
  | .updPauseWriting ok => (LowLevelServer.pause_writing ok c).2.1
  | .updResumeReading ok => (LowLevelServer.resume_reading ok c).2.1
  | .updResumeWriting ok => (LowLevelServer.resume_writing ok c).2.1

/-- Slot flag states reachable from a freshly built client
(`Client::build_from` starts with all flags false) through the event-loop
operations. -/
inductive SlotReachable : SlotFlags → Prop where
  | init : SlotReachable ⟨false, false, false⟩
  | step {c : SlotFlags} (op : SlotOp) : SlotReachable c →
      SlotReachable (slotStep c op)

/-- C2 counterexample: the state `is_reading = true, is_idle = true` is
reachable — resume reading, then hit a `ConnectionReset` inside
`read_ready`, whose internal `sock_shutdown` sets `is_idle` without
clearing `is_reading` (only the `Shutdown` dispatch branch pauses the two
directions afterwards).  This falsifies `is_idle ⇒ ¬is_reading`. -/
theorem C2_counterexample :
    SlotReachable ⟨true, false, true⟩ ∧
      (SlotFlags.mk true false true).is_idle = true ∧
      (SlotFlags.mk true false true).is_reading = true := by
  refine ⟨?_, rfl, rfl⟩
  have h0 := SlotReachable.init
  have h1 := SlotReachable.step (.updResumeReading true) h0
  have h2 := SlotReachable.step .readReadyDisconnect h1
  exact h2

/-- The operations under which the idle-flag invariant is actually
maintained: shutdown only ever arrives through the `Shutdown` dispatch
branch with both its poller calls succeeding, and no resume update is
applied to a slot that is already idle. -/
inductive SafeOp : SlotFlags → SlotOp → Prop where
  | readOk (c : SlotFlags) : SafeOp c .readReadyOk
  | writeOk (c : SlotFlags) : SafeOp c .writeReadyOk
  | dispatch (c : SlotFlags) : SafeOp c (.shutdownDispatch true true)
  | handleNew (c : SlotFlags) : SafeOp c .handleNew
  | pauseR (c : SlotFlags) (ok : Bool) : SafeOp c (.updPauseReading ok)
  | pauseW (c : SlotFlags) (ok : Bool) : SafeOp c (.updPauseWriting ok)
  | resumeR (c : SlotFlags) (ok : Bool) : c.is_idle = false →
      SafeOp c (.updResumeReading ok)
  | resumeW (c : SlotFlags) (ok : Bool) : c.is_idle = false →
      SafeOp c (.updResumeWriting ok)

/-- Slot flag states reachable under the restricted operations. -/
inductive SlotReachableSafe : SlotFlags → Prop where
  | init : SlotReachableSafe ⟨false, false, false⟩
  | step {c : SlotFlags} {op : SlotOp} : SlotReachableSafe c →
      SafeOp c op → SlotReachableSafe (slotStep c op)

/-- C2 amended: `is_idle = true` implies `is_reading = false` and
`is_writing = false` in every state reachable through the event-loop
operations PROVIDED `sock_shutdown` only ever runs through the `Shutdown`
dispatch branch with both its pause poller calls succeeding and no resume
update reaches an idle slot; the bare `sock_shutdown` of the
`read_ready`/`write_ready` error paths sets `is_idle` while leaving the
other flags, so the unrestricted invariant fails. -/
theorem C2_amended_idle_invariant (s : SlotFlags)
    (h : SlotReachableSafe s) (hid : s.is_idle = true) :
    s.is_reading = false ∧ s.is_writing = false := by
  induction h with
  | init => simp at hid
  | @step c op hr hop ih =>
    cases hop with
    | readOk => exact ih hid
    | writeOk => exact ih hid
    | dispatch =>
      obtain ⟨r, w, i⟩ := c
      cases r <;> cases w <;> cases i <;>
        simp_all [slotStep, LowLevelServer.shutdown_dispatch,
          Client.sock_shutdown_flags, LowLevelServer.pause_writing,
          LowLevelServer.pause_reading]
    | handleNew =>
      simp [slotStep, Client.handle_new_flags]
    | pauseR ok =>
      obtain ⟨r, w, i⟩ := c
      cases r <;> cases w <;> cases i <;> cases ok <;>
        simp_all [slotStep, LowLevelServer.pause_reading]
    | pauseW ok =>
      obtain ⟨r, w, i⟩ := c
      cases r <;> cases w <;> cases i <;> cases ok <;>
        simp_all [slotStep, LowLevelServer.pause_writing]
    | resumeR ok hni =>
      obtain ⟨r, w, i⟩ := c
      cases r <;> cases w <;> cases i <;> cases ok <;>
        simp_all [slotStep, LowLevelServer.resume_reading]
    | resumeW ok hni =>
      obtain ⟨r, w, i⟩ := c
      cases r <;> cases w <;> cases i <;> cases ok <;>
        simp_all [slotStep, LowLevelServer.resume_writing]

/-- Witness for the amended C2: the idle state reached by a clean
`Shutdown` dispatch from a fresh slot has both direction flags cleared. -/
theorem C2_witness :
    (SlotFlags.mk false false true).is_reading = false ∧
      (SlotFlags.mk false false true).is_writing = false :=
  C2_amended_idle_invariant ⟨false, false, true⟩
    (SlotReachableSafe.step SlotReachableSafe.init
      (SafeOp.dispatch ⟨false, false, false⟩))
    rfl

end Pyre

namespace Pyre

/-- The selected-protocol tag (switch.rs); only HTTP/1 exists. -/
inductive SelectedProtocol where
  | H1
  deriving DecidableEq, Repr

/-- The per-connection protocol multiplexer `AutoProtocol`
(protocol_manager.rs): its token, selected protocol, the H1 parse state,
and the shared write and read buffers. -/
structure AutoProtocol where
  token : Token
  selected : SelectedProtocol
  h1 : H1Parse
  writer_buffer : List Nat
  reader_buffer : List Nat
  deriving DecidableEq, Repr

/-- One connection slot `Client` (client.rs).  The OS-level stream, peer
address and the event-loop handle are opaque to the flag logic and held
as plain identifiers. -/
structure Client where
  token : Token
  addr : Nat
  stream : Nat
  event_loop : Nat
  protocol : AutoProtocol
  is_reading : Bool
  is_writing : Bool
  is_idle : Bool
  deriving DecidableEq, Repr

/-- `Client::handle_new(stream, addr)`: store the fresh stream and peer
address and clear the three flags — nothing else is assigned. -/
def Client.handle_new (c : Client) (stream : Nat) (addr : Nat) : Client :=
  { c with
      stream := stream
      addr := addr
      is_reading := false
      is_writing := false
      is_idle := false }

/-- C8: `handle_new(stream, addr)` modifies only the stored stream, the
peer address and the three flags (all set to false); the token, the
event-loop handle and the whole protocol multiplexer — in particular its
read/write buffers and the H1 parse state `expected_content_length` /
`chunked_encoding` — are left unchanged. -/
theorem C8_handle_new_frame (c : Client) (stream addr : Nat) :
    (c.handle_new stream addr).token = c.token ∧
      (c.handle_new stream addr).event_loop = c.event_loop ∧
      (c.handle_new stream addr).protocol = c.protocol ∧
      (c.handle_new stream addr).protocol.reader_buffer
        = c.protocol.reader_buffer ∧
      (c.handle_new stream addr).protocol.writer_buffer
        = c.protocol.writer_buffer ∧
      (c.handle_new stream addr).protocol.h1.expected_content_length
        = c.protocol.h1.expected_content_length ∧
      (c.handle_new stream addr).protocol.h1.chunked_encoding
        = c.protocol.h1.chunked_encoding ∧
      (c.handle_new stream addr).stream = stream ∧
      (c.handle_new stream addr).addr = addr ∧
      (c.handle_new stream addr).is_reading = false ∧
      (c.handle_new stream addr).is_writing = false ∧
      (c.handle_new stream addr).is_idle = false :=
  ⟨rfl, rfl, rfl, rfl, rfl, rfl, rfl, rfl, rfl, rfl, rfl, rfl⟩

end Pyre
